import Mathlib

/-!
Verification of the haqnow.community document platform's web client,
test tooling and infrastructure definitions, as a shallow embedding in
Lean 4.  Coordinates are embedded as rationals (`ℚ`), machine integers
as `Nat`, fallible operations as `Except`/`Option`.  Each definition is
translated from the repository source named in its doc comment.
-/

/-- A redaction record as submitted to `POST /api/documents/{id}/redactions`
(`frontend/src/services/api.ts`, `addRedaction`): page number plus the
rectangle's corner coordinates in rasterized-page pixel space and a reason. -/
structure Redaction where
  page_number : Nat
  x_start : ℚ
  y_start : ℚ
  x_end : ℚ
  y_end : ℚ
  reason : String
deriving Repr, DecidableEq

/-! ### Page pixel dimensions assumed by the two rendering strategies (C1) -/

/-- Full-page width assumed by the OpenSeadragon deep-zoom viewer:
`DocumentViewer.tsx` line 490 declares `tileSources.width: 2550`. -/
def osdPageWidth : ℚ := 2550

/-- Full-page height assumed by the OpenSeadragon deep-zoom viewer:
`DocumentViewer.tsx` line 491 declares `tileSources.height: 3300`. -/
def osdPageHeight : ℚ := 3300

/-- Full-page width assumed by the plain-image fallback viewer:
`DocumentViewer.tsx` lines 146-148 scale by `2400` ("Convert to image
coordinates (300 DPI)"). -/
def fallbackPageWidth : ℚ := 2400

/-- Full-page height assumed by the plain-image fallback viewer:
`DocumentViewer.tsx` lines 147-149 scale by `3600`. -/
def fallbackPageHeight : ℚ := 3600

/-- Image-pixel coordinates produced by the deep-zoom viewer for a gesture at
relative position `(fx, fy)` of the rendered page.  OpenSeadragon's
`viewportToImageCoordinates` maps a point at fraction `(fx, fy)` of the
displayed single-image tile source to `(fx·W, fy·H)` where `W×H` is the
content size declared in `tileSources` (`DocumentViewer.tsx` lines 484-493:
`width: 2550, height: 3300`). -/
def osdGestureToImage (fx fy : ℚ) : ℚ × ℚ :=
  (fx * osdPageWidth, fy * osdPageHeight)

/-- Image-pixel coordinates produced by the fallback viewer for a gesture at
relative position `(fx, fy)` of the rendered page image:
`DocumentViewer.tsx` lines 145-149 compute `(x / rect.width) * 2400` and
`(y / rect.height) * 3600`, and `x / rect.width` is exactly the relative
position `fx`. -/
def fallbackGestureToImage (fx fy : ℚ) : ℚ × ℚ :=
  (fx * fallbackPageWidth, fy * fallbackPageHeight)

/-! ### Redaction drawing release handlers (C4, C5) -/

/-- Clamp a coordinate into `[0, m]`, exactly as
`Math.max(0, Math.min(maxW, v))` in `DocumentViewer.tsx` lines 799-802. -/
def clampTo (m v : ℚ) : ℚ := max 0 (min m v)

/-- The deep-zoom viewer's `canvas-release` handler for redaction drawing
(`DocumentViewer.tsx` lines 772-825): the press and release positions are
converted to image coordinates `(sx, sy)` and `(ex, ey)`, the rectangle's
corners are ordered with `min`/`max`, each coordinate is clamped to the page
bounds `[0, maxW]×[0, maxH]` (lines 795-802), and `onRedactionCreate` is
invoked only when `Math.abs(x_end - x_start) > 10 &&
Math.abs(y_end - y_start) > 10` (line 806). -/
def osdCanvasRelease (sx sy ex ey maxW maxH : ℚ) (page : Nat) :
    Option Redaction :=
  let x_start := clampTo maxW (min sx ex)
  let y_start := clampTo maxH (min sy ey)
  let x_end := clampTo maxW (max sx ex)
  let y_end := clampTo maxH (max sy ey)
  if |x_end - x_start| > 10 ∧ |y_end - y_start| > 10 then
    some ⟨page, x_start, y_start, x_end, y_end, "User redaction"⟩
  else
    none

/-- The fallback viewer's `handleGlobalMouseUp` (`DocumentViewer.tsx`
lines 140-160): drag start `(startX, startY)` and release `(endX, endY)`
positions relative to the image's bounding rectangle of size
`rectW × rectH` are scaled into image coordinates by `(·/rectW)*2400` and
`(·/rectH)*3600`, and `onRedactionCreate` is invoked only when
`Math.abs(imgX2 - imgX1) > 10 && Math.abs(imgY2 - imgY1) > 10`
(line 151).  No clamping to the page bounds is performed. -/
def fallbackMouseUp (startX startY endX endY rectW rectH : ℚ) (page : Nat) :
    Option Redaction :=
  let imgX1 := min startX endX / rectW * fallbackPageWidth
  let imgY1 := min startY endY / rectH * fallbackPageHeight
  let imgX2 := max startX endX / rectW * fallbackPageWidth
  let imgY2 := max startY endY / rectH * fallbackPageHeight
  if |imgX2 - imgX1| > 10 ∧ |imgY2 - imgY1| > 10 then
    some ⟨page, imgX1, imgY1, imgX2, imgY2, "User redaction"⟩
  else
    none

/-! ### Authentication store (C2, C6) -/

/-- The `User` shape stored by the auth store (`frontend/src/services/auth.ts`
lines 6-12). -/
structure SessionUser where
  id : Nat
  email : String
  role : String
  is_active : Bool
deriving Repr, DecidableEq

/-- The persisted slice of the zustand auth store (`auth.ts` lines 14-17 and
139-143): `user`, `token`, `isAuthenticated`. -/
structure AuthState where
  user : Option SessionUser
  token : Option String
  isAuthenticated : Bool
deriving Repr, DecidableEq

/-- The fields of a login / MFA-verify response body that the store reads:
`mfa_required` (truthy check, `auth.ts` line 40) and `access_token`
(`auth.ts` lines 45-46, 75). -/
structure LoginResponseData where
  mfa_required : Bool
  access_token : Option String
deriving Repr, DecidableEq

/-- Return value of `useAuthStore.login`: either a boolean or the
`{ mfa_required: true }` object (`auth.ts` line 18). -/
inductive LoginResult where
  | ok (success : Bool)
  | mfaRequired
deriving Repr, DecidableEq

/-- The hard-coded user object the store builds on success (`auth.ts`
lines 52-57 and 81-86): `id: 1`, the email that was typed, `role: 'admin'`,
`is_active: true`. -/
def sessionUser (email : String) : SessionUser :=
  { id := 1, email := email, role := "admin", is_active := true }

/-- `useAuthStore.login` (`auth.ts` lines 31-104) as a state transformer.
`mfaCode = none` is the first step (`if (!mfaCode)`): a response carrying
`mfa_required` returns the indicator without touching the state (lines
40-42); otherwise a present `access_token` is stored together with the
hard-coded user and `isAuthenticated: true` (lines 45-67); a success
response with neither falls through to `return false` (line 103).
`mfaCode = some _` is the MFA-verify step (lines 68-96): the response's
`access_token` field is destructured and stored unconditionally, with
`isAuthenticated: true`, whether or not the token is present.  Any request
error is caught and returns `false` leaving the state unchanged (lines
97-101).  The `password` argument is forwarded to the server and never
inspected by the store. -/
def login (s : AuthState) (email password : String) (mfaCode : Option String)
    (response : Except Unit LoginResponseData) : LoginResult × AuthState :=
  match response with
  | .error _ => (.ok false, s)
  | .ok data =>
    match mfaCode with
    | none =>
      if data.mfa_required then
        (.mfaRequired, s)
      else
        match data.access_token with
        | some t =>
          (.ok true, { user := some (sessionUser email), token := some t,
                       isAuthenticated := true })
        | none => (.ok false, s)
    | some _ =>
      (.ok true, { user := some (sessionUser email),
                   token := data.access_token, isAuthenticated := true })

/-- Whether `App.tsx` mounts the `/admin` route: the authenticated route
table is rendered only when `isAuthenticated`, and the `/admin` `Route` is
included when `user?.role === 'admin' || user?.role === 'superuser'`
(`App.tsx` lines 181-183). -/
def adminRouteEnabled (s : AuthState) : Bool :=
  s.isAuthenticated &&
    match s.user with
    | some u => u.role == "admin" || u.role == "superuser"
    | none => false

/-! ### Global 401 interceptor (C3) -/

/-- Does the character list `pat` occur as a prefix of `l`?  Helper for the
embedding of JavaScript's `String.prototype.includes`. -/
def startsWithChars : List Char → List Char → Bool
  | [], _ => true
  | _ :: _, [] => false
  | p :: ps, c :: cs => p == c && startsWithChars ps cs

/-- Does the character list `pat` occur contiguously anywhere in `l`? -/
def hasSubChars (pat : List Char) : List Char → Bool
  | [] => startsWithChars pat []
  | c :: cs => startsWithChars pat (c :: cs) || hasSubChars pat cs

/-- JavaScript `url.includes(pat)`: substring containment. -/
def strContains (s pat : String) : Bool :=
  hasSubChars pat.data s.data

/-- The auth-flow exemption test of the response interceptor
(`frontend/src/services/api.ts` line 37):
`url.includes('/api/auth/login') || url.includes('/api/auth/mfa') ||
url.includes('/api/auth/register')`. -/
def isAuthFlowUrl (url : String) : Bool :=
  strContains url "/api/auth/login" || strContains url "/api/auth/mfa" ||
    strContains url "/api/auth/register"

/-- The state written by `useAuthStore.logout` (`auth.ts` lines 123-129):
`user: null, token: null, isAuthenticated: false`. -/
def loggedOutState : AuthState :=
  { user := none, token := none, isAuthenticated := false }

/-- The response interceptor's 401 branch (`api.ts` lines 32-47): when a
response has status 401 and its request URL is not an auth-flow URL, the
store's `logout` is called and the browser is redirected to `/login`.
Returns the resulting auth state and whether a redirect was issued. -/
def handle401 (url : String) (s : AuthState) : AuthState × Bool :=
  if isAuthFlowUrl url then (s, false) else (loggedOutState, true)

/-- The URL the auth store posts the login request to
(`auth.ts` line 35). -/
def authLoginRequestUrl : String := "/auth/login"

/-- The URL the auth store posts the MFA verification to
(`auth.ts` line 70). -/
def mfaVerifyRequestUrl : String := "/auth/mfa/verify"

/-- The URL the auth store posts registrations to (`auth.ts` line 108). -/
def registerRequestUrl : String := "/auth/register"

/-! ### Viewer modes and the redaction lock (C7, C8) -/

/-- The page-level mode state of `DocumentsPage.tsx`: a single `useState`
holding `'view' | 'comment' | 'redact'`. -/
inductive ViewerMode where
  | view
  | comment
  | redact
deriving Repr, DecidableEq

/-- Socket.IO events emitted by `DocumentsPage.tsx` that matter to the
redaction-lock protocol. -/
inductive SocketEvent where
  | acquireRedactionLock
  | releaseRedactionLock
deriving Repr, DecidableEq

/-- The mode effect of `DocumentsPage.tsx` lines 816-829: when `mode`
becomes `'redact'` the client emits `acquire_redaction_lock`; otherwise,
if the lock is held, it emits `release_redaction_lock` and clears
`hasRedactionLock`.  Returns the emitted events and the new lock flag. -/
def modeLockEffect (mode : ViewerMode) (hasLock : Bool) :
    List SocketEvent × Bool :=
  if mode = ViewerMode.redact then ([SocketEvent.acquireRedactionLock], hasLock)
  else if hasLock then ([SocketEvent.releaseRedactionLock], false)
  else ([], hasLock)

/-- The `redaction_lock_status` handler of `DocumentsPage.tsx` lines
788-801: for a payload about this document, `hasRedactionLock` is set to
`acquired`, and a denied lock (`acquired` false) forces `setMode('view')`.
Returns the new `(mode, hasRedactionLock)` pair. -/
def redactionLockStatusHandler (docId payloadDoc : Nat) (acquired : Bool)
    (mode : ViewerMode) (hasLock : Bool) : ViewerMode × Bool :=
  if payloadDoc = docId then
    (if acquired then mode else ViewerMode.view, acquired)
  else
    (mode, hasLock)

/-- Observable outcome of `handleCreateRedaction`. -/
structure CreateRedactionOutcome where
  emitted : List SocketEvent
  apiCalled : Bool
  broadcast : Bool
deriving Repr, DecidableEq

/-- `handleCreateRedaction` of `DocumentsPage.tsx` lines 654-694: when the
lock is not held and a socket exists it emits `acquire_redaction_lock` and
waits briefly, but even when the lock is still not held it proceeds ("For
now, allow redaction creation without lock for testing", lines 677-681,
with the blocking `return` commented out).  The `addRedaction` API call
(line 683) is then always issued, and an `add_redaction` broadcast is
emitted whenever a socket exists (lines 688-690). -/
def handleCreateRedaction (hasLock socketConnected : Bool) :
    CreateRedactionOutcome :=
  { emitted :=
      if !hasLock && socketConnected then [SocketEvent.acquireRedactionLock]
      else []
    apiCalled := true
    broadcast := socketConnected }

/-- The mode-dependent props `DocumentsPage.tsx` lines 1040-1041 pass to
`DocumentViewer`: `redactionMode={mode === 'redact'}`,
`commentMode={mode === 'comment'}`. -/
structure ViewerModeProps where
  commentMode : Bool
  redactionMode : Bool
deriving Repr, DecidableEq

/-- Build the viewer props from the page mode (`DocumentsPage.tsx`
lines 1040-1041). -/
def viewerModeProps (mode : ViewerMode) : ViewerModeProps :=
  { commentMode := mode == ViewerMode.comment
    redactionMode := mode == ViewerMode.redact }

/-- The OpenSeadragon pan/zoom gesture configuration the viewer applies per
mode. -/
structure OsdGestureSettings where
  panHorizontal : Bool
  panVertical : Bool
  zoomPerClick : ℚ
  zoomPerScroll : ℚ
deriving Repr, DecidableEq

/-- `DocumentViewer.tsx` lines 707-716 and 826-832: in redaction mode the
viewer sets `panHorizontal = panVertical = false` and neutralizes zoom
(`zoomPerClick = 1.0`, `zoomPerScroll = 1.0`); otherwise pan is enabled and
zoom factors are restored (`2.0`, `1.2`). -/
def osdGestureSetup (redactionActive : Bool) : OsdGestureSettings :=
  if redactionActive then
    { panHorizontal := false, panVertical := false,
      zoomPerClick := 1, zoomPerScroll := 1 }
  else
    { panHorizontal := true, panVertical := true,
      zoomPerClick := 2, zoomPerScroll := 6/5 }

/-! ### Feature test script exit code (C9) -/

/-- The summary/exit logic of `test-all-features.sh` lines 394-415 (source
file `unnamed/part_011` lines 400-415): after printing the tally, exit `0`
when `FAILED_TESTS` is zero; otherwise exit `0` when
`PASSED_TESTS > TOTAL_TESTS / 2` (bash integer division) and `1`
otherwise. -/
def testScriptExitCode (total passed failed : Nat) : Nat :=
  if failed = 0 then 0
  else if total / 2 < passed then 0
  else 1

/-! ### Terraform security-group rules (C10) -/

/-- Direction of a security-group rule (`type = "INGRESS" | "EGRESS"`). -/
inductive RuleKind where
  | ingress
  | egress
deriving Repr, DecidableEq

/-- One `exoscale_security_group_rule` resource. -/
structure SGRule where
  kind : RuleKind
  protocol : String
  startPort : Nat
  endPort : Nat
  cidr : String
deriving Repr, DecidableEq

/-- The rules of `infra/terraform/modules/security/main.tf` lines 10-57:
ingress TCP 22 (SSH), 80 (HTTP), 443 (HTTPS) from anywhere, and a single
egress rule for TCP ports 1-65535 to anywhere ("All outbound traffic"). -/
def securityModuleRules : List SGRule :=
  [ { kind := RuleKind.ingress, protocol := "TCP", startPort := 22,
      endPort := 22, cidr := "0.0.0.0/0" },
    { kind := RuleKind.ingress, protocol := "TCP", startPort := 80,
      endPort := 80, cidr := "0.0.0.0/0" },
    { kind := RuleKind.ingress, protocol := "TCP", startPort := 443,
      endPort := 443, cidr := "0.0.0.0/0" },
    { kind := RuleKind.egress, protocol := "TCP", startPort := 1,
      endPort := 65535, cidr := "0.0.0.0/0" } ]

/-- The rules of `infra/terraform/environments/dev/main.tf` lines 31-74:
ingress TCP 22, 80, 443, 8000 (api) and 3000 (frontend) from anywhere; no
egress rule is declared. -/
def devEnvironmentRules : List SGRule :=
  [ { kind := RuleKind.ingress, protocol := "TCP", startPort := 22,
      endPort := 22, cidr := "0.0.0.0/0" },
    { kind := RuleKind.ingress, protocol := "TCP", startPort := 80,
      endPort := 80, cidr := "0.0.0.0/0" },
    { kind := RuleKind.ingress, protocol := "TCP", startPort := 443,
      endPort := 443, cidr := "0.0.0.0/0" },
    { kind := RuleKind.ingress, protocol := "TCP", startPort := 8000,
      endPort := 8000, cidr := "0.0.0.0/0" },
    { kind := RuleKind.ingress, protocol := "TCP", startPort := 3000,
      endPort := 3000, cidr := "0.0.0.0/0" } ]

/-- Whether a rule set permits inbound TCP on `port` from any source. -/
def permitsIngressTCP (rules : List SGRule) (port : Nat) : Bool :=
  rules.any fun r =>
    r.kind == RuleKind.ingress && r.protocol == "TCP" &&
      decide (r.startPort ≤ port) && decide (port ≤ r.endPort)

/-- Whether a rule set permits outbound TCP on `port`.  Exoscale security
groups allow all egress by default; declared egress rules restrict egress
to the traffic they match.  So egress is permitted when no egress rule is
declared, and otherwise exactly when some egress rule matches. -/
def permitsEgressTCP (rules : List SGRule) (port : Nat) : Bool :=
  if rules.any (fun r => r.kind == RuleKind.egress) then
    rules.any fun r =>
      r.kind == RuleKind.egress && r.protocol == "TCP" &&
        decide (r.startPort ≤ port) && decide (port ≤ r.endPort)
  else
    true

/-! ## Theorems -/

/-- C1 counterexample: a gesture at the centre of the rendered page is
converted to different image-pixel coordinates by the deep-zoom viewer
(`(1275, 1650)`) and by the fallback viewer (`(1200, 1800)`), and the two
strategies assume different full-page pixel dimensions (`2550×3300` versus
`2400×3600`). -/
theorem viewer_pixel_space_mismatch :
    osdGestureToImage (1/2) (1/2) ≠ fallbackGestureToImage (1/2) (1/2) ∧
    (osdPageWidth, osdPageHeight) ≠ (fallbackPageWidth, fallbackPageHeight) := by
  constructor
  · simp only [osdGestureToImage, fallbackGestureToImage, osdPageWidth,
      osdPageHeight, fallbackPageWidth, fallbackPageHeight, ne_eq,
      Prod.mk.injEq, not_and]
    intro h
    norm_num at h
  · simp only [osdPageWidth, osdPageHeight, fallbackPageWidth,
      fallbackPageHeight, ne_eq, Prod.mk.injEq, not_and]
    intro h
    norm_num at h

/-- C1 (amended): the deep-zoom viewer and the fallback viewer convert a
gesture at the same relative page location to the same image-pixel
coordinates only at the page origin, because they assume different
full-page pixel dimensions (2550×3300 versus 2400×3600). -/
theorem viewer_gesture_agreement_only_at_origin (fx fy : ℚ) :
    osdGestureToImage fx fy = fallbackGestureToImage fx fy ↔
      fx = 0 ∧ fy = 0 := by
  simp only [osdGestureToImage, fallbackGestureToImage, osdPageWidth,
    osdPageHeight, fallbackPageWidth, fallbackPageHeight, Prod.ext_iff]
  constructor
  · rintro ⟨h1, h2⟩
    constructor <;> linarith
  · rintro ⟨rfl, rfl⟩
    norm_num

/-- C2: every successful login (direct or after MFA verification) stores the
hard-coded session user — id 1, role `admin`, `is_active` — no matter which
email authenticated, and consequently the `/admin` route is enabled in the
resulting state. -/
theorem login_success_stores_admin_user (s : AuthState)
    (email password : String) (mfaCode : Option String)
    (response : Except Unit LoginResponseData)
    (h : (login s email password mfaCode response).1 = LoginResult.ok true) :
    (login s email password mfaCode response).2.user =
        some (sessionUser email) ∧
    (sessionUser email).id = 1 ∧ (sessionUser email).role = "admin" ∧
    (sessionUser email).is_active = true ∧
    adminRouteEnabled (login s email password mfaCode response).2 = true := by
  rcases response with _ | data
  · simp [login] at h
  · rcases mfaCode with _ | code
    · by_cases hm : data.mfa_required
      · simp [login, hm] at h
      · rcases ht : data.access_token with _ | t
        · simp [login, hm, ht] at h
        · simp [login, hm, ht, sessionUser, adminRouteEnabled]
    · simp [login, sessionUser, adminRouteEnabled]

/-- C2 witness: a concrete direct login with an access token present. -/
theorem login_success_stores_admin_user_witness :
    (login ⟨none, none, false⟩ "reporter@example.org" "pw" none
        (Except.ok ⟨false, some "tok"⟩)).1 = LoginResult.ok true ∧
    ((login ⟨none, none, false⟩ "reporter@example.org" "pw" none
        (Except.ok ⟨false, some "tok"⟩)).2.user =
          some (sessionUser "reporter@example.org") ∧
      (sessionUser "reporter@example.org").id = 1 ∧
      (sessionUser "reporter@example.org").role = "admin" ∧
      (sessionUser "reporter@example.org").is_active = true ∧
      adminRouteEnabled (login ⟨none, none, false⟩ "reporter@example.org"
        "pw" none (Except.ok ⟨false, some "tok"⟩)).2 = true) :=
  ⟨rfl, login_success_stores_admin_user ⟨none, none, false⟩
    "reporter@example.org" "pw" none (Except.ok ⟨false, some "tok"⟩) rfl⟩

/-- C3 counterexample: a 401 from the login endpoint exactly as the auth
store requests it (`/auth/login`, which does not contain the interceptor's
exempted `/api/auth/...` fragments) clears an authenticated session and
redirects, contradicting the claim that a 401 from an auth endpoint leaves
the session unchanged. -/
theorem auth_endpoint_401_clears_session :
    handle401 authLoginRequestUrl
        ⟨some (sessionUser "a@b.c"), some "tok", true⟩ =
      (loggedOutState, true) ∧
    loggedOutState ≠
      (⟨some (sessionUser "a@b.c"), some "tok", true⟩ : AuthState) := by
  refine ⟨?_, ?_⟩ <;> decide

/-- C3 (amended): on a 401 the interceptor leaves the session untouched
exactly for URLs containing `/api/auth/login`, `/api/auth/mfa` or
`/api/auth/register`; the login, MFA-verify and register requests issued by
the auth store use `/auth/...` URLs that do not match, so a 401 from any of
them — like one from a non-auth endpoint — clears the session and redirects
to `/login`. -/
theorem interceptor_clears_unless_api_auth_url (s : AuthState) :
    handle401 authLoginRequestUrl s = (loggedOutState, true) ∧
    handle401 mfaVerifyRequestUrl s = (loggedOutState, true) ∧
    handle401 registerRequestUrl s = (loggedOutState, true) ∧
    handle401 "/api/documents/7" s = (loggedOutState, true) ∧
    handle401 "/api/auth/login" s = (s, false) ∧
    handle401 "/api/auth/mfa/setup" s = (s, false) ∧
    handle401 "/api/auth/register" s = (s, false) := by
  have h1 : isAuthFlowUrl authLoginRequestUrl = false := by decide
  have h2 : isAuthFlowUrl mfaVerifyRequestUrl = false := by decide
  have h3 : isAuthFlowUrl registerRequestUrl = false := by decide
  have h4 : isAuthFlowUrl "/api/documents/7" = false := by decide
  have h5 : isAuthFlowUrl "/api/auth/login" = true := by decide
  have h6 : isAuthFlowUrl "/api/auth/mfa/setup" = true := by decide
  have h7 : isAuthFlowUrl "/api/auth/register" = true := by decide
  simp [handle401, h1, h2, h3, h4, h5, h6, h7]

/-- Helper: `isSome` of a conditional creation. -/
theorem isSome_ite_creation {α : Type} (c : Prop) [Decidable c] (a : α) :
    (if c then some a else none).isSome = true ↔ c := by
  split_ifs with h <;> simp [h]

/-- Helper: `Option.all` over a conditional creation. -/
theorem all_ite_creation {α : Type} (c : Prop) [Decidable c] (a : α)
    (p : α → Bool) :
    ((if c then some a else none).all p = true) ↔ (c → p a = true) := by
  split_ifs with h <;> simp [h]

/-- Helper: the clamp keeps values nonnegative. -/
theorem clampTo_nonneg (m v : ℚ) : 0 ≤ clampTo m v := le_max_left 0 _

/-- Helper: the clamp keeps values below the bound. -/
theorem clampTo_le_bound {m : ℚ} (v : ℚ) (hm : 0 ≤ m) : clampTo m v ≤ m :=
  max_le hm (min_le_left _ _)

/-- Helper: the clamp is the identity on values already in `[0, m]`. -/
theorem clampTo_eq_self {m v : ℚ} (h0 : 0 ≤ v) (hm : v ≤ m) :
    clampTo m v = v := by
  unfold clampTo
  rw [min_eq_right hm, max_eq_right h0]

/-- C4: in both viewers a drawn rectangle is persisted exactly when both its
width and its height in image-pixel space exceed 10 pixels.  For the
fallback viewer (positive bounding rectangle) the image-space width of a
drag from `startX` to `endX` is `|endX - startX| / rectW * 2400`; for the
deep-zoom viewer (gesture within the page bounds, where clamping is the
identity) it is `|ex - sx|`.  And whenever either handler persists a
`Redaction`, that redaction's extent exceeds 10 pixels on both axes. -/
theorem redaction_min_size_threshold (sx sy ex ey rectW rectH : ℚ) (pg : Nat)
    (osx osy oex oey maxW maxH : ℚ) (opg : Nat)
    (hw : 0 < rectW) (hh : 0 < rectH)
    (hb : 0 ≤ osx ∧ osx ≤ maxW ∧ 0 ≤ oex ∧ oex ≤ maxW ∧
          0 ≤ osy ∧ osy ≤ maxH ∧ 0 ≤ oey ∧ oey ≤ maxH) :
    ((fallbackMouseUp sx sy ex ey rectW rectH pg).isSome = true ↔
      (10 < |ex - sx| / rectW * fallbackPageWidth ∧
        10 < |ey - sy| / rectH * fallbackPageHeight)) ∧
    ((fallbackMouseUp sx sy ex ey rectW rectH pg).all
        (fun r => decide (10 < |r.x_end - r.x_start|) &&
          decide (10 < |r.y_end - r.y_start|)) = true) ∧
    ((osdCanvasRelease osx osy oex oey maxW maxH opg).isSome = true ↔
      (10 < |oex - osx| ∧ 10 < |oey - osy|)) ∧
    ((osdCanvasRelease osx osy oex oey maxW maxH opg).all
        (fun r => decide (10 < |r.x_end - r.x_start|) &&
          decide (10 < |r.y_end - r.y_start|)) = true) := by
  obtain ⟨hx0, hxW, he0, heW, hy0, hyH, hf0, hfH⟩ := hb
  have hXspan : max sx ex / rectW * fallbackPageWidth -
      min sx ex / rectW * fallbackPageWidth =
      |ex - sx| / rectW * fallbackPageWidth := by
    rw [← sub_mul, div_sub_div_same, max_sub_min_eq_abs, abs_sub_comm]
  have hYspan : max sy ey / rectH * fallbackPageHeight -
      min sy ey / rectH * fallbackPageHeight =
      |ey - sy| / rectH * fallbackPageHeight := by
    rw [← sub_mul, div_sub_div_same, max_sub_min_eq_abs, abs_sub_comm]
  have hXnn : 0 ≤ |ex - sx| / rectW * fallbackPageWidth := by
    have : (0:ℚ) ≤ fallbackPageWidth := by norm_num [fallbackPageWidth]
    positivity
  have hYnn : 0 ≤ |ey - sy| / rectH * fallbackPageHeight := by
    have : (0:ℚ) ≤ fallbackPageHeight := by norm_num [fallbackPageHeight]
    positivity
  have hXabs : |max sx ex / rectW * fallbackPageWidth -
      min sx ex / rectW * fallbackPageWidth| =
      |ex - sx| / rectW * fallbackPageWidth := by
    rw [hXspan, abs_of_nonneg hXnn]
  have hYabs : |max sy ey / rectH * fallbackPageHeight -
      min sy ey / rectH * fallbackPageHeight| =
      |ey - sy| / rectH * fallbackPageHeight := by
    rw [hYspan, abs_of_nonneg hYnn]
  have cminx : clampTo maxW (min osx oex) = min osx oex :=
    clampTo_eq_self (le_min hx0 he0) ((min_le_left _ _).trans hxW)
  have cmaxx : clampTo maxW (max osx oex) = max osx oex :=
    clampTo_eq_self (hx0.trans (le_max_left _ _)) (max_le hxW heW)
  have cminy : clampTo maxH (min osy oey) = min osy oey :=
    clampTo_eq_self (le_min hy0 hf0) ((min_le_left _ _).trans hyH)
  have cmaxy : clampTo maxH (max osy oey) = max osy oey :=
    clampTo_eq_self (hy0.trans (le_max_left _ _)) (max_le hyH hfH)
  have hOX : |max osx oex - min osx oex| = |oex - osx| := by
    rw [max_sub_min_eq_abs, abs_sub_comm, abs_abs]
  have hOY : |max osy oey - min osy oey| = |oey - osy| := by
    rw [max_sub_min_eq_abs, abs_sub_comm, abs_abs]
  refine ⟨?_, ?_, ?_, ?_⟩
  · unfold fallbackMouseUp
    rw [isSome_ite_creation, hXabs, hYabs]
  · unfold fallbackMouseUp
    rw [all_ite_creation]
    intro hc
    simpa using hc
  · unfold osdCanvasRelease
    rw [isSome_ite_creation, cminx, cmaxx, cminy, cmaxy, hOX, hOY]
  · unfold osdCanvasRelease
    rw [all_ite_creation]
    intro hc
    simpa using hc

/-- C4 witness: a concrete well-formed gesture in each viewer. -/
theorem redaction_min_size_threshold_witness :
    (0:ℚ) < 800 ∧ (0:ℚ) < 900 ∧
    ((0:ℚ) ≤ 0 ∧ (0:ℚ) ≤ 2550 ∧ (0:ℚ) ≤ 500 ∧ (500:ℚ) ≤ 2550 ∧
      (0:ℚ) ≤ 0 ∧ (0:ℚ) ≤ 3300 ∧ (0:ℚ) ≤ 600 ∧ (600:ℚ) ≤ 3300) ∧
    (((fallbackMouseUp 0 0 100 100 800 900 0).isSome = true ↔
      (10 < |(100:ℚ) - 0| / 800 * fallbackPageWidth ∧
        10 < |(100:ℚ) - 0| / 900 * fallbackPageHeight)) ∧
    ((fallbackMouseUp 0 0 100 100 800 900 0).all
        (fun r => decide (10 < |r.x_end - r.x_start|) &&
          decide (10 < |r.y_end - r.y_start|)) = true) ∧
    ((osdCanvasRelease 0 0 500 600 2550 3300 0).isSome = true ↔
      (10 < |(500:ℚ) - 0| ∧ 10 < |(600:ℚ) - 0|)) ∧
    ((osdCanvasRelease 0 0 500 600 2550 3300 0).all
        (fun r => decide (10 < |r.x_end - r.x_start|) &&
          decide (10 < |r.y_end - r.y_start|)) = true)) :=
  ⟨by norm_num, by norm_num, by norm_num,
    redaction_min_size_threshold 0 0 100 100 800 900 0
      0 0 500 600 2550 3300 0 (by norm_num) (by norm_num) (by norm_num)⟩

/-- C5 counterexample: in the fallback viewer a drag released outside the
page image (start at the image origin, release at twice the displayed
width/height) persists a redaction whose `x_end`/`y_end` (4800, 7200) lie
far outside the page's pixel bounds (2400×3600): the fallback path performs
no clamping. -/
theorem fallback_release_exceeds_page_bounds :
    fallbackMouseUp 0 0 1600 1800 800 900 0 =
      some ⟨0, 0, 0, 4800, 7200, "User redaction"⟩ ∧
    fallbackPageWidth < 4800 ∧ fallbackPageHeight < 7200 := by
  refine ⟨?_, by norm_num [fallbackPageWidth], by norm_num [fallbackPageHeight]⟩
  unfold fallbackMouseUp
  norm_num [fallbackPageWidth, fallbackPageHeight]

/-- C5 (amended): the deep-zoom viewer clamps every persisted coordinate of
a drawn redaction into the page bounds `[0, maxW]×[0, maxH]`; the fallback
viewer does not clamp, and a drag extending outside the page image persists
out-of-bounds coordinates. -/
theorem osd_release_clamped_to_page_bounds
    (sx sy ex ey maxW maxH : ℚ) (pg : Nat) (hW : 0 ≤ maxW) (hH : 0 ≤ maxH) :
    (osdCanvasRelease sx sy ex ey maxW maxH pg).all
      (fun r => decide (0 ≤ r.x_start) && decide (r.x_start ≤ maxW) &&
        decide (0 ≤ r.x_end) && decide (r.x_end ≤ maxW) &&
        decide (0 ≤ r.y_start) && decide (r.y_start ≤ maxH) &&
        decide (0 ≤ r.y_end) && decide (r.y_end ≤ maxH)) = true := by
  unfold osdCanvasRelease
  rw [all_ite_creation]
  intro _
  simp only [Bool.and_eq_true, decide_eq_true_eq]
  exact ⟨⟨⟨⟨⟨⟨⟨clampTo_nonneg _ _, clampTo_le_bound _ hW⟩,
    clampTo_nonneg _ _⟩, clampTo_le_bound _ hW⟩,
    clampTo_nonneg _ _⟩, clampTo_le_bound _ hH⟩,
    clampTo_nonneg _ _⟩, clampTo_le_bound _ hH⟩

/-- C5 witness: concrete page bounds for the deep-zoom clamping theorem. -/
theorem osd_release_clamped_to_page_bounds_witness :
    (0:ℚ) ≤ 2550 ∧ (0:ℚ) ≤ 3300 ∧
    (osdCanvasRelease (-500) (-400) 9000 9500 2550 3300 0).all
      (fun r => decide (0 ≤ r.x_start) && decide (r.x_start ≤ 2550) &&
        decide (0 ≤ r.x_end) && decide (r.x_end ≤ 2550) &&
        decide (0 ≤ r.y_start) && decide (r.y_start ≤ 3300) &&
        decide (0 ≤ r.y_end) && decide (r.y_end ≤ 3300)) = true :=
  ⟨by norm_num, by norm_num,
    osd_release_clamped_to_page_bounds (-500) (-400) 9000 9500 2550 3300 0
      (by norm_num) (by norm_num)⟩

/-- C6 counterexample: a successful MFA-verify response that carries no
`access_token` still sets `isAuthenticated` to true (with no token stored):
the MFA branch destructures and stores the token field unconditionally, so
"token stored and isAuthenticated set only when an access_token is present"
fails. -/
theorem mfa_verify_without_token_authenticates :
    login ⟨none, none, false⟩ "user@example.org" "pw" (some "123456")
        (Except.ok ⟨false, none⟩) =
      (LoginResult.ok true,
        ⟨some (sessionUser "user@example.org"), none, true⟩) ∧
    (⟨false, none⟩ : LoginResponseData).access_token = none :=
  ⟨rfl, rfl⟩

/-- C6 (amended): the complete behaviour of `useAuthStore.login`.  A
first-step response carrying `mfa_required` returns the indicator and
leaves the session unchanged; a first-step response with an `access_token`
stores it and authenticates; a first-step success with neither returns
false and leaves the session unchanged; any request error returns false
and leaves the session unchanged.  The MFA-verify step, however,
authenticates on every non-error response, storing whatever `access_token`
field the response carries — even when it is absent. -/
theorem login_state_transitions :
    (∀ (s : AuthState) (e p : String) (t : Option String),
      login s e p none (Except.ok ⟨true, t⟩) =
        (LoginResult.mfaRequired, s)) ∧
    (∀ (s : AuthState) (e p t : String),
      login s e p none (Except.ok ⟨false, some t⟩) =
        (LoginResult.ok true, ⟨some (sessionUser e), some t, true⟩)) ∧
    (∀ (s : AuthState) (e p : String),
      login s e p none (Except.ok ⟨false, none⟩) =
        (LoginResult.ok false, s)) ∧
    (∀ (s : AuthState) (e p c : String) (d : LoginResponseData),
      login s e p (some c) (Except.ok d) =
        (LoginResult.ok true, ⟨some (sessionUser e), d.access_token, true⟩)) ∧
    (∀ (s : AuthState) (e p : String) (mc : Option String),
      login s e p mc (Except.error ()) = (LoginResult.ok false, s)) :=
  ⟨fun _ _ _ _ => rfl, fun _ _ _ _ => rfl, fun _ _ _ => rfl,
    fun _ _ _ _ _ => rfl, fun _ _ _ _ => rfl⟩

/-- C7 counterexample: with the redaction lock not held — socket connected
or not — `handleCreateRedaction` still issues the redaction-create API
call, so a redaction-create request is issued without the lock being
held. -/
theorem redaction_create_issued_without_lock :
    (handleCreateRedaction false true).apiCalled = true ∧
    (handleCreateRedaction false false).apiCalled = true :=
  ⟨rfl, rfl⟩

/-- C7 (amended): entering redact mode emits `acquire_redaction_lock`;
leaving redact mode while the lock is held emits `release_redaction_lock`
and clears the flag; a denied lock response forces the page back to view
mode; but the redaction-create API call is issued regardless of whether
the lock is held — when it is not held and a socket exists the client
merely re-emits the acquire request before proceeding anyway. -/
theorem redaction_lock_protocol :
    (∀ l : Bool, modeLockEffect ViewerMode.redact l =
      ([SocketEvent.acquireRedactionLock], l)) ∧
    modeLockEffect ViewerMode.view true =
      ([SocketEvent.releaseRedactionLock], false) ∧
    modeLockEffect ViewerMode.comment true =
      ([SocketEvent.releaseRedactionLock], false) ∧
    (∀ (d : Nat) (m : ViewerMode) (l : Bool),
      redactionLockStatusHandler d d false m l = (ViewerMode.view, false)) ∧
    (∀ l sck : Bool, (handleCreateRedaction l sck).apiCalled = true) ∧
    (handleCreateRedaction false true).emitted =
      [SocketEvent.acquireRedactionLock] ∧
    (∀ sck : Bool, (handleCreateRedaction true sck).emitted = []) := by
  refine ⟨fun l => rfl, rfl, rfl, fun d m l => ?_, fun l sck => rfl, rfl,
    fun sck => rfl⟩
  simp [redactionLockStatusHandler]

/-- C8: the page holds a single mode, so the `commentMode` and
`redactionMode` props handed to the viewer are never simultaneously true,
and in redaction mode the viewer disables panning and neutralizes both
zoom factors so drawing gestures own pointer input. -/
theorem mode_exclusivity_and_gesture_ownership :
    (∀ m : ViewerMode,
      ((viewerModeProps m).commentMode &&
        (viewerModeProps m).redactionMode) = false) ∧
    osdGestureSetup true =
      { panHorizontal := false, panVertical := false,
        zoomPerClick := 1, zoomPerScroll := 1 } := by
  refine ⟨fun m => ?_, rfl⟩
  cases m <;> rfl

/-- C9: the feature test script exits 0 exactly when no check failed or
strictly more than half of the executed checks passed (`2·passed > total`,
which over the naturals is exactly `passed > total / 2` with bash integer
division), and exits 1 otherwise. -/
theorem test_script_exit_code_majority (total passed failed : Nat) :
    (testScriptExitCode total passed failed = 0 ↔
      (failed = 0 ∨ total < 2 * passed)) ∧
    (testScriptExitCode total passed failed = 1 ↔
      ¬(failed = 0 ∨ total < 2 * passed)) := by
  unfold testScriptExitCode
  constructor <;> split_ifs <;> simp_all <;> omega

/-- C10: the security module's rules permit inbound TCP on exactly ports
22, 80 and 443; the development environment's rules permit inbound TCP on
exactly ports 22, 80, 443, 8000 and 3000; the module's egress rule permits
outbound TCP on every port 1-65535; and the development security group,
which declares no egress rule, permits all outbound TCP by Exoscale's
default-allow egress semantics. -/
theorem security_group_port_policy :
    (∀ p : Nat, permitsIngressTCP securityModuleRules p = true ↔
      (p = 22 ∨ p = 80 ∨ p = 443)) ∧
    (∀ p : Nat, permitsIngressTCP devEnvironmentRules p = true ↔
      (p = 22 ∨ p = 80 ∨ p = 443 ∨ p = 8000 ∨ p = 3000)) ∧
    (∀ p : Nat, 1 ≤ p → p ≤ 65535 →
      permitsEgressTCP securityModuleRules p = true) ∧
    (∀ p : Nat, permitsEgressTCP devEnvironmentRules p = true) := by
  refine ⟨fun p => ?_, fun p => ?_, fun p h1 h2 => ?_, fun p => ?_⟩
  · simp [permitsIngressTCP, securityModuleRules]
    omega
  · simp [permitsIngressTCP, devEnvironmentRules]
    omega
  · simp [permitsEgressTCP, securityModuleRules]
    omega
  · simp [permitsEgressTCP, devEnvironmentRules]

/-- C10 witness: port 443 is permitted inbound by the module, and TCP
egress on port 443 is permitted by both rule sets. -/
theorem security_group_port_policy_witness :
    permitsIngressTCP securityModuleRules 443 = true ∧
    (1 ≤ 443 ∧ 443 ≤ 65535) ∧
    permitsEgressTCP securityModuleRules 443 = true ∧
    permitsEgressTCP devEnvironmentRules 443 = true :=
  ⟨(security_group_port_policy.1 443).mpr (Or.inr (Or.inr rfl)),
    ⟨by norm_num, by norm_num⟩,
    security_group_port_policy.2.2.1 443 (by norm_num) (by norm_num),
    security_group_port_policy.2.2.2 443⟩
